import Mathlib

/-!
Verification of the MMD valve-calculation tool against its specification.

Each calculation page (DC001, DC002, DC004, DC010, DC011) is embedded as
functions over exact numbers (ℚ where the source is plain arithmetic on
decimal constants, ℝ where the source uses pi or square roots; the float
NaN produced by guarded divisions in DC004 is modelled as the none case of
an Option).  The persistence layer (dc001_repo.py / valve_repo.py with
db.connect providing one transaction per call and audit.log_on_conn
writing on the same connection) is embedded as explicit state passing over
a database value holding the calculation rows and the audit rows; the
possibility that the audit INSERT raises is an explicit boolean parameter,
and the try/except-pass wrappers of the source are reflected in how that
parameter is consumed.
-/

namespace MMD

/-! ### DC002 — body-closure bolt selection (page_dc002.py) -/

/-- The bolt tensile-stress-area catalog BOLT_TENSILE_AREAS_MM2, in source
(insertion) order: five UNC sizes followed by three metric sizes.  Areas in
mm², exact decimal arithmetic. -/
def boltCatalog : List (String × ℚ) :=
  [("1/2 UNC (1/2-13)", 0.1599 * 645.16),
   ("5/8 UNC (5/8-11)", 0.2260 * 645.16),
   ("3/4 UNC (3/4-10)", 0.3340 * 645.16),
   ("7/8 UNC (7/8-9)",  0.4620 * 645.16),
   ("1 UNC (1-8)",      0.6060 * 645.16),
   ("M16 x 2.0 (coarse)", 157.0),
   ("M20 x 2.5 (coarse)", 245.0),
   ("M24 x 3.0 (coarse)", 353.0)]

/-- The catalog areas in source order. -/
def boltAreas : List ℚ := boltCatalog.map Prod.snd

/-- Index of the first list entry that is at least a, if any: the loop
over bolt_options in render_dc002 that sets default_idx and breaks. -/
def firstIdxGe (a : ℚ) : List ℚ → Option ℕ
  | [] => none
  | x :: xs => if a ≤ x then some 0 else (firstIdxGe a xs).map Nat.succ

/-- The selected catalog index for a required per-bolt area: the first
index whose area is at least the requirement, else the initial value 0 of
default_idx. -/
def selectIdx (a : ℚ) : ℕ := (firstIdxGe a boltAreas).getD 0

/-- The tensile-stress area of the selected bolt. -/
def selectedArea (a : ℚ) : ℚ := boltAreas.getD (selectIdx a) 0

theorem firstIdxGe_eq_none_iff (a : ℚ) (l : List ℚ) :
    firstIdxGe a l = none ↔ ∀ x ∈ l, x < a := by
  induction l with
  | nil => simp [firstIdxGe]
  | cons x xs ih =>
    rw [firstIdxGe]
    by_cases h : a ≤ x
    · rw [if_pos h]
      constructor
      · intro hc; cases hc
      · intro hall
        exact absurd (hall x (List.mem_cons_self x xs)) (not_lt.mpr h)
    · rw [if_neg h]
      constructor
      · intro hnone y hy
        rcases List.mem_cons.mp hy with rfl | hy
        · exact not_le.mp h
        · exact ih.mp (Option.map_eq_none'.mp hnone) y hy
      · intro hall
        rw [ih.mpr fun y hy => hall y (List.mem_cons_of_mem x hy)]
        rfl

theorem firstIdxGe_spec (a : ℚ) (l : List ℚ) (k : ℕ)
    (h : firstIdxGe a l = some k) :
    a ≤ l.getD k 0 ∧ ∀ j, j < k → l.getD j 0 < a := by
  induction l generalizing k with
  | nil => simp [firstIdxGe] at h
  | cons x xs ih =>
    rw [firstIdxGe] at h
    by_cases hx : a ≤ x
    · rw [if_pos hx] at h
      injection h with h
      subst h
      exact ⟨hx, fun j hj => absurd hj (Nat.not_lt_zero j)⟩
    · rw [if_neg hx] at h
      obtain ⟨m, hm, hmk⟩ := Option.map_eq_some'.mp h
      obtain ⟨h1, h2⟩ := ih m hm
      subst hmk
      refine ⟨h1, ?_⟩
      intro j hj
      cases j with
      | zero => exact not_le.mp hx
      | succ i => exact h2 i (Nat.lt_of_succ_lt_succ hj)

/-- C1 (counterexample): the DC002 selection is not the smallest
qualifying catalog area, and the no-match fallback is not the largest
entry.  At required area 150 mm² the code selects the 3/4-inch UNC bolt
(215.48344 mm², the first qualifying entry in catalog order) although the
M16 entry (157 mm²) also qualifies and is smaller; at required area
400 mm² nothing qualifies and the code selects index 0 (103.161084 mm²,
the smallest entry) although the 1-inch UNC entry (390.96696 mm²) is the
largest available. -/
theorem dc002_selection_claim_false :
    (selectedArea 150 = 0.3340 * 645.16 ∧
      (157 : ℚ) ∈ boltAreas ∧ (150 : ℚ) ≤ 157 ∧ (157 : ℚ) < selectedArea 150) ∧
    (selectIdx 400 = 0 ∧ selectedArea 400 = 0.1599 * 645.16 ∧
      (0.6060 * 645.16 : ℚ) ∈ boltAreas ∧ selectedArea 400 < 0.6060 * 645.16 ∧
      ∀ x ∈ boltAreas, x < 400) := by
  have h150 : selectIdx 150 = 2 := by
    norm_num [selectIdx, firstIdxGe, boltAreas, boltCatalog]
  have h400 : selectIdx 400 = 0 := by
    norm_num [selectIdx, firstIdxGe, boltAreas, boltCatalog]
  refine ⟨⟨?_, ?_, by norm_num, ?_⟩, h400, ?_, ?_, ?_, ?_⟩
  · rw [selectedArea, h150]; norm_num [boltAreas, boltCatalog]
  · simp only [boltAreas, boltCatalog, List.map_cons, List.map_nil, List.mem_cons]
    norm_num
  · rw [selectedArea, h150]; norm_num [boltAreas, boltCatalog]
  · rw [selectedArea, h400]; norm_num [boltAreas, boltCatalog]
  · simp [boltAreas, boltCatalog]
  · rw [selectedArea, h400]; norm_num [boltAreas, boltCatalog]
  · intro x hx
    simp [boltAreas, boltCatalog] at hx
    rcases hx with h | h | h | h | h | h | h | h <;> rw [h] <;> norm_num

/-- C1 (amended): the DC002 selection picks the first catalog entry in
catalog (insertion) order whose tensile-stress area is at least the
required per-bolt area — every entry before the selected one is strictly
below the requirement — and when no catalog entry qualifies it falls back
to index 0, the first catalog entry. -/
theorem dc002_selection_first_qualifying (a : ℚ) :
    ((∃ x ∈ boltAreas, a ≤ x) →
      a ≤ selectedArea a ∧ ∀ j, j < selectIdx a → boltAreas.getD j 0 < a) ∧
    ((∀ x ∈ boltAreas, x < a) → selectIdx a = 0) := by
  constructor
  · intro hex
    have hne : firstIdxGe a boltAreas ≠ none := by
      intro hnone
      obtain ⟨x, hx, hax⟩ := hex
      exact absurd hax (not_le.mpr ((firstIdxGe_eq_none_iff a boltAreas).mp hnone x hx))
    obtain ⟨k, hk⟩ := Option.ne_none_iff_exists'.mp hne
    obtain ⟨h1, h2⟩ := firstIdxGe_spec a boltAreas k hk
    unfold selectedArea selectIdx
    rw [hk]
    exact ⟨h1, h2⟩
  · intro hall
    unfold selectIdx
    rw [(firstIdxGe_eq_none_iff a boltAreas).mpr hall]
    rfl

/-- C1 (witness): instantiation of the amended selection theorem at the
required areas 150 mm² (where a qualifying entry exists) and 450 mm²
(where none does). -/
theorem dc002_selection_first_qualifying_witness :
    (∃ x ∈ boltAreas, (150 : ℚ) ≤ x) ∧ (150 : ℚ) ≤ selectedArea 150 ∧
      selectIdx 450 = 0 := by
  have hex : ∃ x ∈ boltAreas, (150 : ℚ) ≤ x := by
    refine ⟨157, ?_, by norm_num⟩
    simp only [boltAreas, boltCatalog, List.map_cons, List.map_nil, List.mem_cons]
    norm_num
  have hall : ∀ x ∈ boltAreas, x < (450 : ℚ) := by
    intro x hx
    simp [boltAreas, boltCatalog] at hx
    rcases hx with h | h | h | h | h | h | h | h <;> rw [h] <;> norm_num
  exact ⟨hex, ((dc002_selection_first_qualifying 150).1 hex).1,
    (dc002_selection_first_qualifying 450).2 hall⟩

/-! ### Persistence layer — dc001_repo.py / valve_repo.py over db.connect

db.connect opens one transaction per repository call (engine.begin),
committed when the call returns and rolled back only if an exception
escapes the block.  audit.log_on_conn inserts the audit row on that same
connection, but every repository call wraps it in try/except-pass, so a
failing audit INSERT is swallowed and the row change still commits.  The
state is a DB value; whether the audit INSERT succeeds is the explicit
auditOk parameter. -/

/-- Python string truthiness fallback: the expression (s or d). -/
def pyOr (s d : String) : String := if s = "" then d else s

/-- The characters removed by Python str.strip(): ASCII whitespace. -/
def pySpace (c : Char) : Bool :=
  c == ' ' || c == '\t' || c == '\n' || c == '\r' || c == '\x0b' || c == '\x0c'

/-- Python str.strip(): drop leading and trailing whitespace. -/
def pyStrip (s : String) : String :=
  ⟨((s.data.dropWhile pySpace).reverse.dropWhile pySpace).reverse⟩

/-- Name normalization in create_dc001_calc / update_dc001_calc:
(name or "DC001").strip() or "DC001". -/
def dc001NormName (name : String) : String :=
  pyOr (pyStrip (pyOr name "DC001")) "DC001"

/-- Name normalization in create_valve_design / update_valve_design:
(name or "").strip() or "Untitled". -/
def valveNormName (name : String) : String :=
  pyOr (pyStrip (pyOr name "")) "Untitled"

/-- Modelled from the spec wording for comparison: the stored name is the
trimmed input, replaced by the type-specific default when the trimmed
input is empty. -/
def specNormalizedName (dflt name : String) : String :=
  if pyStrip name = "" then dflt else pyStrip name

/-- A persisted calculation row: (id, user_id, name, data). -/
structure DCRow where
  rid : String
  owner : String
  name : String
  data : String
deriving DecidableEq

/-- An audit_logs row (the fields the repository layer determines). -/
structure AuditRow where
  action : String
  entity : String
  entityId : String
  name : Option String
deriving DecidableEq

/-- Database state: the calculation table and the audit_logs table. -/
structure DB where
  rows : List DCRow
  audits : List AuditRow
deriving DecidableEq

/-- The WHERE id = :id AND user_id = :uid filter used by every user-scoped
statement. -/
def rowMatch (cid uid : String) (r : DCRow) : Bool :=
  r.rid == cid && r.owner == uid

/-- create_dc001_calc: inside one transaction, INSERT the row, then
attempt the audit INSERT on the same connection inside try/except-pass;
auditOk says whether that INSERT succeeds.  Returns the new state and the
new id. -/
def create_dc001_calc (db : DB) (newId userId name payload : String)
    (auditOk : Bool) : DB × String :=
  let nm := dc001NormName name
  let db1 : DB := ⟨db.rows ++ [⟨newId, userId, nm, payload⟩], db.audits⟩
  let db2 : DB :=
    if auditOk then ⟨db1.rows, db1.audits ++ [⟨"CREATE", "dc001", newId, some nm⟩]⟩
    else db1
  (db2, newId)

/-- The per-row effect of the UPDATE statement of update_dc001_calc. -/
def applyUpd (cid uid : String) (nmOpt dtOpt : Option String) (r : DCRow) : DCRow :=
  if rowMatch cid uid r then
    { r with
      name := match nmOpt with | some n => dc001NormName n | none => r.name,
      data := match dtOpt with | some d => d | none => r.data }
  else r

/-- update_dc001_calc: with no fields to set it returns False at once;
otherwise one transaction runs the user-scoped UPDATE, ok is rowcount > 0,
and only when ok does it attempt the audit INSERT (try/except-pass, same
connection), whose logged name is the new name when one was passed, else
the row name read back on the same connection. -/
def update_dc001_calc (db : DB) (calcId userId : String)
    (nmOpt dtOpt : Option String) (auditOk : Bool) : DB × Bool :=
  if nmOpt.isNone && dtOpt.isNone then (db, false)
  else
    let rows := db.rows.map (applyUpd calcId userId nmOpt dtOpt)
    let ok := db.rows.any (rowMatch calcId userId)
    let nameForLog : Option String :=
      match nmOpt with
      | some n => some (dc001NormName n)
      | none => (rows.find? (rowMatch calcId userId)).map (·.name)
    if ok && auditOk then
      (⟨rows, db.audits ++ [⟨"UPDATE", "dc001", calcId, nameForLog⟩]⟩, ok)
    else (⟨rows, db.audits⟩, ok)

/-- delete_dc001_calc: one transaction prefetches the name, runs the
user-scoped DELETE, ok is rowcount > 0, and only when ok does it attempt
the audit INSERT (try/except-pass, same connection). -/
def delete_dc001_calc (db : DB) (calcId userId : String) (auditOk : Bool) :
    DB × Bool :=
  let nameBefore : Option String :=
    (db.rows.find? (rowMatch calcId userId)).map (·.name)
  let rows := db.rows.filter (fun r => !(rowMatch calcId userId r))
  let ok := db.rows.any (rowMatch calcId userId)
  if ok && auditOk then
    (⟨rows, db.audits ++ [⟨"DELETE", "dc001", calcId, nameBefore⟩]⟩, ok)
  else (⟨rows, db.audits⟩, ok)

/-- get_dc001_calc: the user-scoped SELECT; none when no row matches, else
the payload together with the stored name. -/
def get_dc001_calc (db : DB) (calcId userId : String) :
    Option (String × String) :=
  (db.rows.find? (rowMatch calcId userId)).map (fun r => (r.data, r.name))

theorem map_eq_self_of_fix {α : Type} (l : List α) (f : α → α)
    (h : ∀ a ∈ l, f a = a) : l.map f = l := by
  induction l with
  | nil => rfl
  | cons x xs ih =>
    rw [List.map_cons, h x (List.mem_cons_self x xs),
      ih fun a ha => h a (List.mem_cons_of_mem x ha)]

theorem filter_eq_self_of_all {α : Type} (l : List α) (p : α → Bool)
    (h : ∀ a ∈ l, p a = true) : l.filter p = l := by
  induction l with
  | nil => rfl
  | cons x xs ih =>
    rw [List.filter_cons, if_pos (h x (List.mem_cons_self x xs)),
      ih fun a ha => h a (List.mem_cons_of_mem x ha)]

/-- C8: for every name string passed to create or update, the stored name
is the trimmed input, and when the input is empty or whitespace-only the
stored name is the type-specific default: "DC001" for DC001 records and
"Untitled" for valve designs. -/
theorem repo_name_normalized (name : String) :
    dc001NormName name = specNormalizedName "DC001" name ∧
    valveNormName name = specNormalizedName "Untitled" name := by
  constructor
  · by_cases h : name = ""
    · subst h; decide
    · have h1 : pyOr name "DC001" = name := if_neg h
      rw [dc001NormName, h1, specNormalizedName, pyOr]
  · by_cases h : name = ""
    · subst h; decide
    · have h1 : pyOr name "" = name := if_neg h
      rw [valveNormName, h1, specNormalizedName, pyOr]

/-- C2 (counterexample): create on an empty database with a failing audit
INSERT: the try/except-pass in create_dc001_calc swallows the failure, so
the transaction commits the new row while no audit entry is written — the
claimed rollback does not happen. -/
theorem audit_atomicity_claim_false :
    (create_dc001_calc ⟨[], []⟩ "id1" "alice" "My calc" "payload" false).1.rows
        = [⟨"id1", "alice", "My calc", "payload"⟩] ∧
    (create_dc001_calc ⟨[], []⟩ "id1" "alice" "My calc" "payload" false).1.rows
        ≠ [] ∧
    (create_dc001_calc ⟨[], []⟩ "id1" "alice" "My calc" "payload" false).1.audits
        = [] := by
  refine ⟨?_, by decide, rfl⟩
  show [(⟨"id1", "alice", dc001NormName "My calc", "payload"⟩ : DCRow)] = _
  have : dc001NormName "My calc" = "My calc" := by decide
  rw [this]

/-- C2 (amended): each successful create/update/delete writes its single
audit entry on the same connection — hence in the same transaction — as
the row change, but the audit INSERT is wrapped in try/except-pass: when
it succeeds, exactly one audit entry is appended together with the row
change; when it fails, the row change still commits and no audit entry is
written (the transaction does not roll back). -/
theorem audit_same_transaction_failure_swallowed
    (db : DB) (newId userId name payload calcId nm : String) (aok : Bool) :
    ((create_dc001_calc db newId userId name payload aok).1.rows
        = db.rows ++ [⟨newId, userId, dc001NormName name, payload⟩] ∧
      (create_dc001_calc db newId userId name payload aok).1.audits
        = if aok then
            db.audits ++ [⟨"CREATE", "dc001", newId, some (dc001NormName name)⟩]
          else db.audits) ∧
    ((update_dc001_calc db calcId userId (some nm) none aok).1.audits.length
        = db.audits.length
          + (if db.rows.any (rowMatch calcId userId) && aok then 1 else 0) ∧
      (update_dc001_calc db calcId userId (some nm) none aok).2
        = db.rows.any (rowMatch calcId userId)) ∧
    ((delete_dc001_calc db calcId userId aok).1.audits.length
        = db.audits.length
          + (if db.rows.any (rowMatch calcId userId) && aok then 1 else 0) ∧
      (delete_dc001_calc db calcId userId aok).2
        = db.rows.any (rowMatch calcId userId)) := by
  refine ⟨⟨?_, ?_⟩, ⟨?_, ?_⟩, ⟨?_, ?_⟩⟩ <;>
    cases haok : aok <;>
    cases hany : db.rows.any (rowMatch calcId userId) <;>
    simp [create_dc001_calc, update_dc001_calc, delete_dc001_calc, hany]

/-- C7: for every record id and caller user_id such that no stored row has
both that id and that owner — a foreign owner or a nonexistent id — get
returns none while update and delete return false and leave the database
unchanged; the two situations produce identical outcomes.  (The embedded
operations are total functions: no exception is modelled because the
source reports these cases through return values, not raises.) -/
theorem repo_foreign_or_missing_id_fails
    (db : DB) (cid uid : String)
    (h : ∀ r ∈ db.rows, r.rid = cid → r.owner ≠ uid)
    (nmOpt dtOpt : Option String) (aok : Bool) :
    get_dc001_calc db cid uid = none ∧
    update_dc001_calc db cid uid nmOpt dtOpt aok = (db, false) ∧
    delete_dc001_calc db cid uid aok = (db, false) := by
  have hmatch : ∀ r ∈ db.rows, rowMatch cid uid r = false := by
    intro r hr
    by_cases h1 : r.rid = cid
    · simp [rowMatch, h1, h r hr h1]
    · simp [rowMatch, h1]
  have hfind : db.rows.find? (rowMatch cid uid) = none :=
    List.find?_eq_none.mpr fun r hr => by simp [hmatch r hr]
  have hany : db.rows.any (rowMatch cid uid) = false :=
    List.any_eq_false.mpr fun r hr => by simp [hmatch r hr]
  have hmap : db.rows.map (applyUpd cid uid nmOpt dtOpt) = db.rows :=
    map_eq_self_of_fix _ _ fun r hr => by simp [applyUpd, hmatch r hr]
  have hfil : db.rows.filter (fun r => !(rowMatch cid uid r)) = db.rows :=
    filter_eq_self_of_all _ _ fun r hr => by simp [hmatch r hr]
  refine ⟨?_, ?_, ?_⟩
  · rw [get_dc001_calc, hfind]; rfl
  · rw [update_dc001_calc]
    by_cases hnd : nmOpt.isNone && dtOpt.isNone
    · rw [if_pos hnd]
    · rw [if_neg hnd]
      simp only [hmap, hany, Bool.false_and, if_neg Bool.false_ne_true]
  · rw [delete_dc001_calc]
    simp only [hfil, hany, Bool.false_and, if_neg Bool.false_ne_true]

/-- C7 (witness): on a database holding one row owned by alice, the calls
by bob (and any calls naming a nonexistent id would match the same
hypothesis) return none / false and leave the state unchanged. -/
theorem repo_foreign_or_missing_id_fails_witness :
    get_dc001_calc ⟨[⟨"r1", "alice", "N", "d"⟩], []⟩ "r1" "bob" = none ∧
    update_dc001_calc ⟨[⟨"r1", "alice", "N", "d"⟩], []⟩ "r1" "bob"
        (some "X") none true = (⟨[⟨"r1", "alice", "N", "d"⟩], []⟩, false) ∧
    delete_dc001_calc ⟨[⟨"r1", "alice", "N", "d"⟩], []⟩ "r1" "bob" true
        = (⟨[⟨"r1", "alice", "N", "d"⟩], []⟩, false) :=
  repo_foreign_or_missing_id_fails ⟨[⟨"r1", "alice", "N", "d"⟩], []⟩
    "r1" "bob" (by decide) (some "X") none true

/-! ### DC004 — seat thickness (page_dc004.py)

The two thin-wall formulas are guarded: when a denominator is not
positive the source stores float("nan").  NaN is modelled as none; the
arithmetic on defined values is exact (ℚ). -/

/-- Denominator 2 * (SaF316 - 0.6 * P) of the design-condition formula. -/
def denomD1 (SaF316 P : ℚ) : ℚ := 2 * (SaF316 - 0.6 * P)

/-- t_design = (P * Di) / denom if the denominator is positive, else NaN. -/
def tDesign (SaF316 P Di : ℚ) : Option ℚ :=
  if 0 < denomD1 SaF316 P then some (P * Di / denomD1 SaF316 P) else none

/-- Denominator 2 * (SmF316 - 0.6 * PT) of the test-condition formula. -/
def denomD2 (SmF316 PT : ℚ) : ℚ := 2 * (SmF316 - 0.6 * PT)

/-- t_test = (PT * Di) / denom if the denominator is positive, else NaN. -/
def tTest (SmF316 PT Di : ℚ) : Option ℚ :=
  if 0 < denomD2 SmF316 PT then some (PT * Di / denomD2 SmF316 PT) else none

/-- The comparison b > a as Python evaluates it on possibly-NaN floats:
any comparison involving NaN is false. -/
def mlt : Option ℚ → Option ℚ → Bool
  | some x, some y => decide (x < y)
  | _, _ => false

/-- Python max(a, b): keeps a unless b compares greater, with NaN
comparisons false. -/
def pymax (a b : Option ℚ) : Option ℚ := if mlt a b then b else a

/-- req_t = max(t_design, t_test) of render_dc004. -/
def reqT (SaF316 SmF316 P PT Di : ℚ) : Option ℚ :=
  pymax (tDesign SaF316 P Di) (tTest SmF316 PT Di)

/-- The NaN-safe verdict of render_dc004:
(not (req_t != req_t)) and real_t >= req_t. -/
def dc004Verdict (realT : ℚ) : Option ℚ → Bool
  | none => false
  | some r => decide (realT ≥ r)

/-- C5: t_design and t_test are always computed — each is NaN exactly when
its negative-denominator guard triggers, and a defined quotient otherwise;
the required thickness is the (Python) max of the two; and whenever the
required thickness is NaN the verdict is false. -/
theorem dc004_required_thickness_and_nan_verdict
    (SaF316 SmF316 P PT Di realT : ℚ) :
    (tDesign SaF316 P Di = none ↔ ¬ 0 < denomD1 SaF316 P) ∧
    (tTest SmF316 PT Di = none ↔ ¬ 0 < denomD2 SmF316 PT) ∧
    reqT SaF316 SmF316 P PT Di
        = pymax (tDesign SaF316 P Di) (tTest SmF316 PT Di) ∧
    (reqT SaF316 SmF316 P PT Di = none →
      dc004Verdict realT (reqT SaF316 SmF316 P PT Di) = false) := by
  refine ⟨?_, ?_, rfl, ?_⟩
  · rw [tDesign]
    by_cases h : 0 < denomD1 SaF316 P <;> simp [h]
  · rw [tTest]
    by_cases h : 0 < denomD2 SmF316 PT <;> simp [h]
  · intro h
    rw [h]
    rfl

/-- C5 (witness): with SaF316 = 0, P = 1 the design denominator is
negative, the required thickness is NaN, and the verdict is false. -/
theorem dc004_required_thickness_and_nan_verdict_witness :
    reqT 0 0 1 1 5 = none ∧ dc004Verdict 6.90 (reqT 0 0 1 1 5) = false := by
  have h : reqT 0 0 1 1 5 = none := by
    norm_num [reqT, tDesign, tTest, denomD1, denomD2, pymax, mlt]
  exact ⟨h, (dc004_required_thickness_and_nan_verdict 0 0 1 1 5 6.90).2.2.2 h⟩

/-! ### DC001 — seat insert and spring calculation (page_dc001.py)

The formulas use pi, so they are embedded over ℝ.  Every division in
render_dc001 clamps its denominator with max(·, 1e-9); each clamped
denominator is a named definition so the guarding can be stated. -/

noncomputable section

/-- The 1e-9 clamp applied to every denominator in render_dc001. -/
def eps : ℝ := 1e-9

/-- Theoretical spring load Fm = pi * Dm * q * z. -/
def FmOf (Dm q z : ℝ) : ℝ := Real.pi * Dm * q * z

/-- Clamped divisor max(P, 1e-9) of Nm = Fm / P. -/
def denomP (P : ℝ) : ℝ := max P eps

/-- Requested spring count Nm = Fm / max(P, 1e-9). -/
def NmOf (Dm q z P : ℝ) : ℝ := FmOf Dm q z / denomP P

/-- Clamped divisor max(f, 1e-9) of Pr = P * (f - 0.5) / f. -/
def denomF (f : ℝ) : ℝ := max f eps

/-- Real packing load Pr = P * (f - 0.5) / max(f, 1e-9). -/
def PrOf (P f : ℝ) : ℝ := P * (f - 0.5) / denomF f

/-- Clamped divisor max(Pr, 1e-9) of Nmr = Fm / Pr. -/
def denomPr (P f : ℝ) : ℝ := max (PrOf P f) eps

/-- Real spring count Nmr = Fm / max(Pr, 1e-9). -/
def NmrOf (Dm q z P f : ℝ) : ℝ := FmOf Dm q z / denomPr P f

/-- Clamped divisor pi * max(Dm, 1e-9) of C1effective. -/
def denomDm (Dm : ℝ) : ℝ := Real.pi * max Dm eps

/-- C1effective = Pr / (pi * max(Dm, 1e-9)). -/
def C1effOf (P f Dm : ℝ) : ℝ := PrOf P f / denomDm Dm

/-- Seat-insert load F = (Dc² - ((De+Di)/2)²) * 1.1 * Pa * pi/4 + Pr. -/
def FOf (De Di Dc Pa P f : ℝ) : ℝ :=
  (Dc ^ 2 - ((De + Di) / 2) ^ 2) * 1.1 * Pa * (Real.pi / 4) + PrOf P f

/-- Clamped ring-area divisor max((De² - Di²) * pi, 1e-9) of Q. -/
def denomArea (De Di : ℝ) : ℝ := max ((De ^ 2 - Di ^ 2) * Real.pi) eps

/-- Insert resistance Q = F * 4 / max((De² - Di²) * pi, 1e-9). -/
def QOf (De Di Dc Pa P f : ℝ) : ℝ := FOf De Di Dc Pa P f * 4 / denomArea De Di

/-- SPRING CHECK of render_dc001: VERIFIED iff total_load (= Pr) ≥ Fm. -/
def springCheckVerified (Dm q z P f : ℝ) : Prop :=
  PrOf P f ≥ FmOf Dm q z

/-- C4: the DC001 spring-check verdict is VERIFIED exactly when the real
packing load Pr is at least the theoretical spring load Fm, and the
comparison is inclusive: equality yields VERIFIED. -/
theorem dc001_verdict_iff_pr_ge_fm (Dm q z P f : ℝ) :
    (springCheckVerified Dm q z P f ↔ PrOf P f ≥ FmOf Dm q z) ∧
    (PrOf P f = FmOf Dm q z → springCheckVerified Dm q z P f) :=
  ⟨Iff.rfl, fun h => ge_of_eq h⟩

/-- C4 (witness): at z = 0 and P = 0 both loads are zero, so the boundary
case Pr = Fm occurs and the verdict is VERIFIED. -/
theorem dc001_verdict_iff_pr_ge_fm_witness :
    PrOf 0 1 = FmOf 5 2 0 ∧ springCheckVerified 5 2 0 0 1 := by
  have h : PrOf 0 1 = FmOf 5 2 0 := by
    rw [PrOf, FmOf]
    norm_num
  exact ⟨h, (dc001_verdict_iff_pr_ge_fm 5 2 0 0 1).2 h⟩

/-- C9: every divisor used by the DC001 computation — max(P,1e-9) in Nm,
max(f,1e-9) in Pr, max(Pr,1e-9) in Nmr, pi·max(Dm,1e-9) in C1effective and
the clamped ring area max((De²-Di²)·pi,1e-9) in Q — is at least 1e-9 and
in particular strictly positive, for all real inputs (including zeros and
De = Di), so no division by zero occurs and every output is defined. -/
theorem dc001_divisors_clamped_positive (Dm P f De Di : ℝ) :
    (eps ≤ denomP P ∧ eps ≤ denomF f ∧ eps ≤ denomPr P f ∧
      eps ≤ denomDm Dm ∧ eps ≤ denomArea De Di) ∧
    (0 < denomP P ∧ 0 < denomF f ∧ 0 < denomPr P f ∧
      0 < denomDm Dm ∧ 0 < denomArea De Di) := by
  have heps : (0 : ℝ) < eps := by norm_num [eps]
  have h1 : eps ≤ denomP P := le_max_right _ _
  have h2 : eps ≤ denomF f := le_max_right _ _
  have h3 : eps ≤ denomPr P f := le_max_right _ _
  have h5 : eps ≤ denomArea De Di := le_max_right _ _
  have h4 : eps ≤ denomDm Dm := by
    have hm : eps ≤ max Dm eps := le_max_right _ _
    have hpi : (1 : ℝ) ≤ Real.pi := by
      linarith [Real.pi_gt_three]
    calc eps ≤ max Dm eps := hm
      _ = 1 * max Dm eps := (one_mul _).symm
      _ ≤ Real.pi * max Dm eps :=
          mul_le_mul_of_nonneg_right hpi (le_trans heps.le hm)
      _ = denomDm Dm := rfl
  exact ⟨⟨h1, h2, h3, h4, h5⟩,
    lt_of_lt_of_le heps h1, lt_of_lt_of_le heps h2, lt_of_lt_of_le heps h3,
    lt_of_lt_of_le heps h4, lt_of_lt_of_le heps h5⟩

/-- C3 (counterexample): at Dm = 62.3, q = 2.5, z = 1 the computed Fm is
155.75·pi ≈ 489.303, more than 0.01 away from the claimed 489.49; and at
P = 1020, f = 2.19 the computed Pr is 1020·1.69/2.19 ≈ 787.123, more than
half a final digit away from the claimed 787.06. -/
theorem dc001_scenario_claim_false :
    |FmOf 62.3 2.5 1 - 489.49| > 0.01 ∧
    |PrOf 1020 2.19 - 787.06| > 0.005 := by
  constructor
  · rw [gt_iff_lt, lt_abs]
    right
    have h := Real.pi_lt_d6
    rw [FmOf]
    nlinarith
  · rw [gt_iff_lt, lt_abs]
    left
    rw [PrOf, denomF, max_eq_left (by norm_num [eps])]
    norm_num

/-- C3 (amended): at Dm = 62.3, q = 2.5, z = 1 the computed Fm is 489.30
(±0.01); with P = 1020 and f = 2.19 the computed values are Nm = 0.48
(±0.005), Pr = 787.12 (±0.01) and Nmr = 0.622 (±0.0005). -/
theorem dc001_scenario_values :
    |FmOf 62.3 2.5 1 - 489.30| ≤ 0.01 ∧
    |NmOf 62.3 2.5 1 1020 - 0.48| ≤ 0.005 ∧
    |PrOf 1020 2.19 - 787.12| ≤ 0.01 ∧
    |NmrOf 62.3 2.5 1 1020 2.19 - 0.622| ≤ 0.0005 := by
  have hpiL := Real.pi_gt_d6
  have hpiU := Real.pi_lt_d6
  have hFmL : 489.3029 ≤ FmOf 62.3 2.5 1 := by
    rw [FmOf]; nlinarith
  have hFmU : FmOf 62.3 2.5 1 ≤ 489.3032 := by
    rw [FmOf]; nlinarith
  have hPr : PrOf 1020 2.19 = 1020 * (2.19 - 0.5) / 2.19 := by
    rw [PrOf, denomF, max_eq_left (by norm_num [eps])]
  have hPrL : 787.123 ≤ PrOf 1020 2.19 := by rw [hPr]; norm_num
  have hPrU : PrOf 1020 2.19 ≤ 787.124 := by rw [hPr]; norm_num
  have hPrpos : (0 : ℝ) < PrOf 1020 2.19 := by linarith
  refine ⟨?_, ?_, ?_, ?_⟩
  · rw [abs_le]
    constructor <;> linarith
  · have hNm : NmOf 62.3 2.5 1 1020 = FmOf 62.3 2.5 1 / 1020 := by
      rw [NmOf, denomP, max_eq_left (by norm_num [eps])]
    rw [hNm, abs_le]
    constructor <;> [linarith [hFmL]; linarith [hFmU]]
  · rw [abs_le]
    constructor <;> linarith
  · have hNmr : NmrOf 62.3 2.5 1 1020 2.19
        = FmOf 62.3 2.5 1 / PrOf 1020 2.19 := by
      rw [NmrOf, denomPr, max_eq_left (le_trans (by norm_num [eps]) hPrL)]
    rw [hNmr, abs_le]
    constructor
    · rw [le_sub_iff_add_le, le_div_iff₀ hPrpos]
      nlinarith
    · rw [sub_le_iff_le_add, div_le_iff₀ hPrpos]
      nlinarith

end

/-! ### DC010 — valve torque (page_dc010.py) -/

noncomputable section

/-- Pressure load on ball hubs Fb = (pi * Dc² / 4) * Po. -/
def Fb (Dc Po : ℝ) : ℝ := Real.pi * Dc ^ 2 / 4 * Po

/-- Torque from differential pressure Mtb = Fb * f1 * (Db / 2), in N·mm. -/
def Mtb (Dc Po f1 Db : ℝ) : ℝ := Fb Dc Po * f1 * (Db / 2)

/-- Torque from the spring load on the two seats
Mtm = 2 * (Pr * Nma) * f2 * 0.91 * (D / 2), in N·mm. -/
def Mtm (Pr Nma f2 D : ℝ) : ℝ := 2 * (Pr * Nma) * f2 * 0.91 * (D / 2)

/-- Piston-effect force Fi = (pi * max(Dc² - Dm², 0) / 4) * Po: the
annular area is clamped at zero. -/
def Fi (Dc Dm Po : ℝ) : ℝ := Real.pi * max (Dc ^ 2 - Dm ^ 2) 0 / 4 * Po

/-- Torque from the piston effect Mti = Fi * f2 * 0.91 * (D / 2). -/
def Mti (Dc Dm Po f2 D : ℝ) : ℝ := Fi Dc Dm Po * f2 * 0.91 * (D / 2)

/-- Total torque Tbb1 = (Mtb + Mtm + Mti) / 1000, in N·m. -/
def Tbb1 (Po D Dc Dm Db Pr Nma f1 f2 : ℝ) : ℝ :=
  (Mtb Dc Po f1 Db + Mtm Pr Nma f2 D + Mti Dc Dm Po f2 D) / 1000

/-- C10: the piston-effect annular area is clamped at zero.  For any
non-negative seal diameter Dc not exceeding the contact diameter Dm the
piston-effect force Fi is zero, hence Mti is zero and the total torque
reduces to (Mtb + Mtm)/1000; and for any non-negative operating pressure
Po the force Fi is never negative. -/
theorem dc010_piston_area_clamped (Po D Dc Dm Db Pr Nma f1 f2 : ℝ) :
    (0 ≤ Dc → Dc ≤ Dm →
      Fi Dc Dm Po = 0 ∧ Mti Dc Dm Po f2 D = 0 ∧
      Tbb1 Po D Dc Dm Db Pr Nma f1 f2
        = (Mtb Dc Po f1 Db + Mtm Pr Nma f2 D) / 1000) ∧
    (0 ≤ Po → 0 ≤ Fi Dc Dm Po) := by
  constructor
  · intro h0 hle
    have hsq : Dc ^ 2 ≤ Dm ^ 2 := by nlinarith
    have hmax : max (Dc ^ 2 - Dm ^ 2) 0 = 0 := max_eq_right (by linarith)
    have hFi : Fi Dc Dm Po = 0 := by
      rw [Fi, hmax]
      ring
    have hMti : Mti Dc Dm Po f2 D = 0 := by
      rw [Mti, hFi]
      ring
    refine ⟨hFi, hMti, ?_⟩
    rw [Tbb1, hMti, add_zero]
  · intro hPo
    exact mul_nonneg
      (div_nonneg (mul_nonneg Real.pi_pos.le (le_max_right _ 0)) (by norm_num))
      hPo

/-- C10 (witness): at Dc = 3 ≤ Dm = 4 and Po = 1 the piston-effect force
is zero and non-negative. -/
theorem dc010_piston_area_clamped_witness :
    (0 : ℝ) ≤ 3 ∧ (3 : ℝ) ≤ 4 ∧ Fi 3 4 1 = 0 ∧
    (0 : ℝ) ≤ 1 ∧ 0 ≤ Fi 3 4 1 :=
  ⟨by norm_num, by norm_num,
    ((dc010_piston_area_clamped 1 2 3 4 5 6 7 8 9).1
      (by norm_num) (by norm_num)).1,
    by norm_num,
    (dc010_piston_area_clamped 1 2 3 4 5 6 7 8 9).2 (by norm_num)⟩

end

/-! ### DC011 — flow coefficient (page_dc011.py) -/

noncomputable section

/-- The flow coefficient of render_dc011: when K_total > 0 and the inner
bore (hence D_in = bore/25.4) is positive, Cv = 29.9 * D_in² / sqrt(K);
otherwise the source stores NaN, modelled as none. -/
def dc011_Cv (bore K : ℝ) : Option ℝ :=
  if 0 < K ∧ 0 < bore then some (29.9 * (bore / 25.4) ^ 2 / Real.sqrt K)
  else none

/-- C6: Cv is 29.9·d_in²/sqrt(K_total), so at a fixed bore and positive
K_total, doubling K_total multiplies Cv by 1/sqrt 2 — exactly, hence
certainly within the claimed 1e-6 relative tolerance. -/
theorem dc011_cv_inverse_sqrt_scaling (bore K : ℝ)
    (hb : 0 < bore) (hK : 0 < K) :
    ∃ c c2 : ℝ,
      dc011_Cv bore K = some c ∧
      c = 29.9 * (bore / 25.4) ^ 2 / Real.sqrt K ∧
      dc011_Cv bore (2 * K) = some c2 ∧
      c2 * Real.sqrt 2 = c ∧
      |c2 - c / Real.sqrt 2| ≤ 1e-6 * (c / Real.sqrt 2) := by
  have h2K : 0 < 2 * K := by linarith
  have hs2 : (0 : ℝ) < Real.sqrt 2 := Real.sqrt_pos.mpr (by norm_num)
  have hsK : (0 : ℝ) < Real.sqrt K := Real.sqrt_pos.mpr hK
  refine ⟨29.9 * (bore / 25.4) ^ 2 / Real.sqrt K,
    29.9 * (bore / 25.4) ^ 2 / Real.sqrt (2 * K),
    ?_, rfl, ?_, ?_, ?_⟩
  · rw [dc011_Cv, if_pos ⟨hK, hb⟩]
  · rw [dc011_Cv, if_pos ⟨h2K, hb⟩]
  · rw [Real.sqrt_mul (by norm_num : (0 : ℝ) ≤ 2) K,
      div_mul_eq_div_div_swap, div_mul_cancel₀ _ (ne_of_gt hs2)]
  · have hc2 : 29.9 * (bore / 25.4) ^ 2 / Real.sqrt (2 * K)
        = 29.9 * (bore / 25.4) ^ 2 / Real.sqrt K / Real.sqrt 2 := by
      rw [Real.sqrt_mul (by norm_num : (0 : ℝ) ≤ 2) K,
        div_mul_eq_div_div_swap]
    rw [hc2, sub_self, abs_zero]
    have hc : (0 : ℝ) ≤ 29.9 * (bore / 25.4) ^ 2 / Real.sqrt K :=
      div_nonneg (by positivity) hsK.le
    have : (0 : ℝ) ≤ 29.9 * (bore / 25.4) ^ 2 / Real.sqrt K / Real.sqrt 2 :=
      div_nonneg hc hs2.le
    nlinarith

/-- C6 (witness): instantiation at bore = 25.4 mm (D_in = 1 inch) and
K_total = 1. -/
theorem dc011_cv_inverse_sqrt_scaling_witness :
    (0 : ℝ) < 25.4 ∧ (0 : ℝ) < 1 ∧
    ∃ c c2 : ℝ,
      dc011_Cv 25.4 1 = some c ∧
      c = 29.9 * ((25.4 : ℝ) / 25.4) ^ 2 / Real.sqrt 1 ∧
      dc011_Cv 25.4 (2 * 1) = some c2 ∧
      c2 * Real.sqrt 2 = c ∧
      |c2 - c / Real.sqrt 2| ≤ 1e-6 * (c / Real.sqrt 2) :=
  ⟨by norm_num, by norm_num,
    dc011_cv_inverse_sqrt_scaling 25.4 1 (by norm_num) (by norm_num)⟩

end

end MMD
